import Mathlib

/-!
Shallow embedding of the pull-request reviewer-assignment service.

The Go source keeps its state in four SQL relations (teams, users,
pull_requests, pr_reviewers); we model the store as explicit lists and the
service functions as pure state-passing functions.  Machine randomness
(`rand.Intn`, `rand.Shuffle`) is modelled by explicit parameters: a draw
index `k` for a single uniform pick and a `shuffle` function (assumed to be
a permutation) for the sampling-without-replacement path.  Fallible
repository operations return `Except`.
-/

/-- Error value of the service layer: `service` mirrors `ServiceError` (a
typed error with a stable code), `internal` mirrors wrapped generic errors
(`fmt.Errorf`). -/
inductive SvcErr where
  | service (code message : String)
  | internal (message : String)
deriving Repr, DecidableEq

/-- The free-text message carried by either error form (`err.Error()`). -/
def SvcErr.message : SvcErr → String
  | .service _ m => m
  | .internal m => m

/-- Row of the `users` table / `models.User`. -/
structure User where
  userID : String
  username : String
  teamName : String
  isActive : Bool
deriving Repr, DecidableEq

/-- Row of the `pull_requests` table (no reviewer list: reviewers live in
`pr_reviewers`).  Timestamps are modelled as `Nat`. -/
structure PRRow where
  pullRequestID : String
  pullRequestName : String
  authorID : String
  status : String
  createdAt : Nat
  mergedAt : Option Nat
deriving Repr, DecidableEq

/-- `models.PullRequest`: the in-memory object, reviewers included. -/
structure PullRequest where
  pullRequestID : String
  pullRequestName : String
  authorID : String
  status : String
  assignedReviewers : List String
  createdAt : Nat
  mergedAt : Option Nat
deriving Repr, DecidableEq

/-- `models.PullRequestShort`. -/
structure PullRequestShort where
  pullRequestID : String
  pullRequestName : String
  authorID : String
  status : String
deriving Repr, DecidableEq

/-- `models.TeamMember`. -/
structure TeamMember where
  userID : String
  username : String
  isActive : Bool
deriving Repr, DecidableEq

/-- `models.Team`. -/
structure Team where
  teamName : String
  members : List TeamMember
deriving Repr, DecidableEq

/-- `models.ReassignedPR`. -/
structure ReassignedPR where
  prID : String
  oldReviewers : List String
  newReviewers : List String
deriving Repr, DecidableEq

/-- `models.BulkDeactivateResponse`. -/
structure BulkDeactivateResponse where
  deactivatedUsers : List String
  reassignedPRs : List ReassignedPR
  totalProcessed : Nat
  reassignedCount : Nat
deriving Repr, DecidableEq

/-- The persistent store: the four relations of the schema.  `assignments`
holds `pr_reviewers` rows as (pull_request_id, reviewer_id) pairs in
insertion order (`assigned_at` order, since rows are stamped at insertion).
-/
structure Store where
  teams : List String
  users : List User
  prRows : List PRRow
  assignments : List (String × String)
deriving Repr, DecidableEq

/-! ## Repository layer (embeds the SQL queries of `internal/repository/postgres`) -/

/-- `TeamRepository.TeamExists`. -/
def teamExists (st : Store) (teamName : String) : Bool :=
  st.teams.any (fun t => t == teamName)

/-- `UserRepository.GetUser`: `SELECT ... FROM users WHERE user_id = $1`. -/
def getUser (st : Store) (userID : String) : Option User :=
  st.users.find? (fun u => u.userID == userID)

/-- The row rewrite performed by `UserRepository.UpdateUser`'s SQL UPDATE. -/
def applyUserUpdate (user : User) (u : User) : User :=
  if u.userID == user.userID then user else u

/-- `UserRepository.UpdateUser`: `UPDATE users SET username, team_name,
is_active WHERE user_id`; 0 rows affected is an error. -/
def updateUser (st : Store) (user : User) : Except SvcErr Store :=
  if st.users.any (fun u => u.userID == user.userID) then
    .ok { st with users := st.users.map (applyUserUpdate user) }
  else .error (.internal "user not found")

/-- `UserRepository.GetActiveUsersByTeam`: `SELECT ... WHERE team_name = $1
AND is_active = true ORDER BY user_id` (lexicographic order on the id's
character sequence). -/
def getActiveUsersByTeam (st : Store) (teamName : String) : List User :=
  List.insertionSort (fun a b => a.userID.data ≤ b.userID.data)
    (st.users.filter (fun u => u.teamName == teamName && u.isActive))

/-- `TeamRepository.GetTeam`: fills in the name and queries the team's
members (`SELECT user_id, username, is_active FROM users WHERE team_name =
$1 ORDER BY user_id`).  Note that no existence check against the `teams`
relation is made: an absent team yields an empty member list, not an
error. -/
def repoGetTeam (st : Store) (teamName : String) : Except SvcErr Team :=
  .ok { teamName := teamName,
        members := (List.insertionSort (fun a b => a.userID.data ≤ b.userID.data)
            (st.users.filter (fun u => u.teamName == teamName))).map
          (fun u => { userID := u.userID, username := u.username, isActive := u.isActive }) }

/-- `PRRepository.PRExists`. -/
def prExists (st : Store) (prID : String) : Bool :=
  st.prRows.any (fun r => r.pullRequestID == prID)

/-- The `pull_requests` row a `PullRequest` object is persisted as
(`INSERT INTO pull_requests (id, name, author_id, status, created_at)`;
`merged_at` defaults to NULL). -/
def prRowOf (pr : PullRequest) : PRRow :=
  { pullRequestID := pr.pullRequestID, pullRequestName := pr.pullRequestName,
    authorID := pr.authorID, status := pr.status, createdAt := pr.createdAt,
    mergedAt := none }

/-- `PRRepository.CreatePR`; the primary key rejects duplicate ids. -/
def createPRRow (st : Store) (pr : PullRequest) : Except SvcErr Store :=
  if prExists st pr.pullRequestID then .error (.internal "failed to create pull request")
  else .ok { st with prRows := st.prRows ++ [prRowOf pr] }

/-- `PRRepository.getPRReviewers` / `ReviewRepository.GetAssignedReviewers`
(identical SQL): `SELECT reviewer_id FROM pr_reviewers WHERE
pull_request_id = $1 ORDER BY assigned_at`. -/
def getAssignedReviewers (st : Store) (prID : String) : List String :=
  (st.assignments.filter (fun a => a.fst == prID)).map (fun a => a.snd)

/-- The `pull_requests` row with id `prID`, if any. -/
def getPRRow (st : Store) (prID : String) : Option PRRow :=
  st.prRows.find? (fun r => r.pullRequestID == prID)

/-- How `PRRepository.GetPR` builds the `PullRequest` object from its row
and the `pr_reviewers` rows. -/
def prOfRow (st : Store) (prID : String) (r : PRRow) : PullRequest :=
  { pullRequestID := r.pullRequestID, pullRequestName := r.pullRequestName,
    authorID := r.authorID, status := r.status,
    assignedReviewers := getAssignedReviewers st prID,
    createdAt := r.createdAt, mergedAt := r.mergedAt }

/-- `PRRepository.GetPR`: loads the row and fills in the reviewer list. -/
def getPR (st : Store) (prID : String) : Option PullRequest :=
  (getPRRow st prID).map (prOfRow st prID)

/-- The row rewrite performed by `PRRepository.UpdatePR`'s SQL UPDATE
(`created_at` is not written). -/
def applyPRUpdate (pr : PullRequest) (r : PRRow) : PRRow :=
  if r.pullRequestID == pr.pullRequestID then
    { r with pullRequestName := pr.pullRequestName, authorID := pr.authorID,
             status := pr.status, mergedAt := pr.mergedAt }
  else r

/-- `PRRepository.UpdatePR`: 0 rows affected is an error. -/
def updatePRRow (st : Store) (pr : PullRequest) : Except SvcErr Store :=
  if st.prRows.any (fun r => r.pullRequestID == pr.pullRequestID) then
    .ok { st with prRows := st.prRows.map (applyPRUpdate pr) }
  else .error (.internal "pull request not found")

/-- `ReviewRepository.IsReviewerAssigned`. -/
def isReviewerAssigned (st : Store) (prID userID : String) : Bool :=
  st.assignments.any (fun a => a.fst == prID && a.snd == userID)

/-- `PRRepository.GetPRsByReviewer`: `SELECT ... FROM pull_requests pr JOIN
pr_reviewers rev ON ... WHERE rev.reviewer_id = $1 ORDER BY pr.created_at
DESC` (the composite key makes the join yield each PR at most once, i.e.
the rows of `pull_requests` where the user is among the reviewers). -/
def getPRsByReviewer (st : Store) (userID : String) : List PullRequestShort :=
  (List.insertionSort (fun a b => b.createdAt ≤ a.createdAt)
      (st.prRows.filter (fun r => isReviewerAssigned st r.pullRequestID userID))).map
    (fun r => { pullRequestID := r.pullRequestID, pullRequestName := r.pullRequestName,
                authorID := r.authorID, status := r.status })

/-- One transactional insertion pass of `ReviewRepository.AssignReviewers`:
each `INSERT INTO pr_reviewers` fails on a duplicate (composite primary
key), which aborts and rolls back the whole transaction. -/
def insertAssignments (acc : List (String × String)) (prID : String) :
    List String → Except SvcErr (List (String × String))
  | [] => .ok acc
  | rid :: rest =>
    if acc.any (fun a => a.fst == prID && a.snd == rid) then
      .error (.internal "failed to assign reviewer")
    else insertAssignments (acc ++ [(prID, rid)]) prID rest

/-- `ReviewRepository.AssignReviewers`. -/
def assignReviewersTx (st : Store) (prID : String) (reviewerIDs : List String) :
    Except SvcErr Store :=
  (insertAssignments st.assignments prID reviewerIDs).map
    (fun a => { st with assignments := a })

/-- `ReviewRepository.ReplaceReviewer`: in one transaction, delete the old
assignment row (0 rows affected is an error) and insert the new one (a
duplicate aborts the transaction, rolling the delete back too). -/
def replaceReviewer (st : Store) (prID oldReviewerID newReviewerID : String) :
    Except SvcErr Store :=
  if isReviewerAssigned st prID oldReviewerID then
    let afterDelete := st.assignments.filter
      (fun a => !(a.fst == prID && a.snd == oldReviewerID))
    if afterDelete.any (fun a => a.fst == prID && a.snd == newReviewerID) then
      .error (.internal "failed to assign new reviewer")
    else .ok { st with assignments := afterDelete ++ [(prID, newReviewerID)] }
  else .error (.internal "reviewer not assigned to this PR")

/-! ## Team service (`TeamService`) and team handler -/

/-- `TeamService.GetTeam`: any repository error is mapped to a `NOT_FOUND`
service error. -/
def getTeamService (st : Store) (teamName : String) : Except SvcErr Team :=
  match repoGetTeam st teamName with
  | .error _ => .error (.service "NOT_FOUND" "team not found")
  | .ok team => .ok team

/-- The HTTP status `TeamHandler.GetTeam` answers with for a non-empty
`team_name` query (empty name is rejected with 400 before the service is
called). -/
def getTeamEndpointStatus (st : Store) (teamName : String) : Nat :=
  if teamName == "" then 400
  else match getTeamService st teamName with
    | .ok _ => 200
    | .error (.service code _) => if code == "NOT_FOUND" then 404 else 500
    | .error (.internal _) => 500

/-! ## PR lifecycle service (`PRService`) -/

/-- `PRService.MergePR`: idempotent merge.  `now` is the wall-clock stamp
the call would take. -/
def mergePR (st : Store) (now : Nat) (prID : String) :
    Except SvcErr (PullRequest × Store) :=
  match getPR st prID with
  | none => .error (.service "NOT_FOUND" "PR not found")
  | some pr =>
    if pr.status == "MERGED" then .ok (pr, st)
    else if pr.status != "OPEN" then
      .error (.service "INVALID_REQUEST" "cannot merge PR that is not open")
    else
      let merged := { pr with status := "MERGED", mergedAt := some now }
      match updatePRRow st merged with
      | .error e => .error e
      | .ok st2 => .ok (merged, st2)

/-- The candidate pool built by `PRService.assignReviewers`' filter loop:
active team members minus the author. -/
def initialCandidates (st : Store) (authorID teamName : String) : List String :=
  ((getActiveUsersByTeam st teamName).filter (fun u => u.userID != authorID)).map
    (fun u => u.userID)

/-- `PRService.assignReviewers`: selects up to 2 reviewers by shuffling the
candidate pool (`rand.Shuffle`, modelled by the `shuffle` parameter) and
taking a prefix. -/
def assignReviewers (st : Store) (authorID teamName : String)
    (shuffle : List String → List String) : List String :=
  let candidateUserIDs := initialCandidates st authorID teamName
  if candidateUserIDs.length == 0 then []
  else
    let reviewerCount := min 2 candidateUserIDs.length
    (shuffle candidateUserIDs).take reviewerCount

/-- `PRService.CreatePR`.  `assignWriteFails` injects a storage failure
into the `reviewRepo.AssignReviewers` call (the code logs and continues on
such a failure). -/
def createPR (st : Store) (now : Nat) (prID prName authorID : String)
    (shuffle : List String → List String) (assignWriteFails : Bool) :
    Except SvcErr (PullRequest × Store) :=
  if prExists st prID then .error (.service "PR_EXISTS" "PR id already exists")
  else match getUser st authorID with
  | none => .error (.service "NOT_FOUND" "author not found")
  | some author =>
    if !author.isActive then .error (.service "INVALID_REQUEST" "author is not active")
    else
      let reviewerIDs := assignReviewers st authorID author.teamName shuffle
      let pr : PullRequest :=
        { pullRequestID := prID, pullRequestName := prName, authorID := authorID,
          status := "OPEN", assignedReviewers := reviewerIDs, createdAt := now,
          mergedAt := none }
      match createPRRow st pr with
      | .error e => .error e
      | .ok st2 =>
        let st3 :=
          if reviewerIDs.length > 0 then
            if assignWriteFails then st2
            else match assignReviewersTx st2 prID reviewerIDs with
              | .ok stOk => stOk
              | .error _ => st2
          else st2
        .ok (pr, st3)

/-- The candidate pool built by `PRService.selectReplacementReviewer`'s
filter loop: active team members minus the author, the old reviewer, and
every currently-assigned reviewer of the PR. -/
def replacementCandidates (st : Store) (teamName prID authorID oldReviewerID : String) :
    List String :=
  ((getActiveUsersByTeam st teamName).filter (fun u =>
      u.userID != authorID && u.userID != oldReviewerID &&
      !isReviewerAssigned st prID u.userID)).map (fun u => u.userID)

/-- `PRService.selectReplacementReviewer`: uniform-random single pick
(`rand.Intn`, modelled by the draw `k`; the selected index is `k` modulo
the pool size, so every index is reachable). -/
def selectReplacementReviewer (st : Store) (teamName prID authorID oldReviewerID : String)
    (k : Nat) : Except SvcErr String :=
  let candidateUserIDs := replacementCandidates st teamName prID authorID oldReviewerID
  if candidateUserIDs.length == 0 then
    .error (.service "NO_CANDIDATE" "no active replacement candidate in team")
  else .ok (candidateUserIDs.getD (k % candidateUserIDs.length) "")

/-- `PRService.replaceInSlice`: replaces every occurrence. -/
def replaceInSlice (slice : List String) (old new : String) : List String :=
  slice.map (fun item => if item == old then new else item)

/-- `PRService.ReassignReviewer`. -/
def reassignReviewer (st : Store) (prID oldReviewerID : String) (k : Nat) :
    Except SvcErr (PullRequest × String × Store) :=
  match getPR st prID with
  | none => .error (.service "NOT_FOUND" "PR not found")
  | some pr =>
    if pr.status == "MERGED" then
      .error (.service "PR_MERGED" "cannot reassign on merged PR")
    else if !isReviewerAssigned st prID oldReviewerID then
      .error (.service "NOT_ASSIGNED" "reviewer is not assigned to this PR")
    else match getUser st oldReviewerID with
    | none => .error (.service "NOT_FOUND" "old reviewer not found")
    | some oldReviewer =>
      if !oldReviewer.isActive then
        .error (.service "INVALID_REQUEST" "old reviewer is not active")
      else match selectReplacementReviewer st oldReviewer.teamName prID pr.authorID
          oldReviewerID k with
      | .error e => .error e
      | .ok newReviewerID =>
        match replaceReviewer st prID oldReviewerID newReviewerID with
        | .error e => .error e
        | .ok st2 =>
          .ok ({ pr with assignedReviewers :=
                   replaceInSlice pr.assignedReviewers oldReviewerID newReviewerID },
               newReviewerID, st2)

/-- The store as left behind by one `ReassignReviewer` call: on an error
nothing was written, so the caller's store is unchanged. -/
def reassignStore (st : Store) (prID oldReviewerID : String) (k : Nat) : Store :=
  match reassignReviewer st prID oldReviewerID k with
  | .ok (_, _, st2) => st2
  | .error _ => st

/-! ## User service (`UserService`) -/

/-- `UserService.GetUserReviewPRs`. -/
def getUserReviewPRs (st : Store) (userID : String) :
    Except SvcErr (List PullRequestShort) :=
  match getUser st userID with
  | none => .error (.service "NOT_FOUND" "user not found")
  | some user =>
    if !user.isActive then .ok []
    else .ok (getPRsByReviewer st userID)

/-- The HTTP status `UserHandler.GetUserReviewPRs` answers with for a
non-empty `user_id` query. -/
def getUserReviewEndpointStatus (st : Store) (userID : String) : Nat :=
  match getUserReviewPRs st userID with
  | .ok _ => 200
  | .error (.service code _) =>
    if code == "NOT_FOUND" then 404
    else if code == "INVALID_REQUEST" then 400
    else 500
  | .error (.internal _) => 500

/-- `contains` helper of the user service. -/
def containsStr (slice : List String) (item : String) : Bool :=
  slice.any (fun s => s == item)

/-- The `newReviewers` list built by `UserService.reassignReviewerInPR`:
copy of the old list with the first occurrence of the old reviewer
replaced (the loop breaks after the first hit). -/
def replaceFirst : List String → String → String → List String
  | [], _, _ => []
  | x :: xs, old, new => if x == old then new :: xs else x :: replaceFirst xs old new

/-- `UserService.getOpenPRsWithReviewer`: all PRs of the reviewer, kept
when `OPEN`, reloaded in full (a failing reload is skipped; in the pure
model the join guarantees the reload succeeds). -/
def getOpenPRsWithReviewer (st : Store) (userID : String) : List PullRequest :=
  ((getPRsByReviewer st userID).filter (fun p => p.status == "OPEN")).filterMap
    (fun p => getPR st p.pullRequestID)

/-- `UserService.reassignReviewerInPR`: the per-PR unit of the bulk
deactivation cascade.  Unlike `PRService.selectReplacementReviewer` it
installs `candidates[0]`, the first candidate, deterministically. -/
def reassignReviewerInPR (st : Store) (prID oldReviewerID teamName : String) :
    Except SvcErr (ReassignedPR × Store) :=
  let currentReviewers := getAssignedReviewers st prID
  if !containsStr currentReviewers oldReviewerID then
    .error (.internal "reviewer not assigned to PR")
  else match getPR st prID with
  | none => .error (.internal "failed to get PR")
  | some pr =>
    let candidates := ((getActiveUsersByTeam st teamName).filter (fun u =>
        u.userID != pr.authorID && u.userID != oldReviewerID &&
        !containsStr currentReviewers u.userID)).map (fun u => u.userID)
    if candidates.length == 0 then
      .error (.internal "no available candidates for replacement in team")
    else
      let newReviewerID := candidates.getD 0 ""
      match replaceReviewer st prID oldReviewerID newReviewerID with
      | .error e => .error e
      | .ok st2 =>
        .ok ({ prID := prID, oldReviewers := currentReviewers,
               newReviewers := replaceFirst currentReviewers oldReviewerID newReviewerID },
             st2)

/-- The per-user deactivation pass of `UserService.BulkDeactivateUsers`:
skip unknown ids and ids of another team, set `active = false` for the
rest; an `UpdateUser` failure aborts with `INTERNAL_ERROR`. -/
def deactivatePass (teamName : String) :
    Store → List String → Except SvcErr (Store × List String)
  | st, [] => .ok (st, [])
  | st, userID :: rest =>
    match getUser st userID with
    | none => deactivatePass teamName st rest
    | some user =>
      if user.teamName != teamName then deactivatePass teamName st rest
      else match updateUser st { user with isActive := false } with
      | .error e => .error (.service "INTERNAL_ERROR" e.message)
      | .ok st2 =>
        match deactivatePass teamName st2 rest with
        | .error e => .error e
        | .ok (st3, ids) => .ok (st3, userID :: ids)

/-- The per-PR cascade loop of `UserService.BulkDeactivateUsers` for one
deactivated user: failures are logged and skipped. -/
def cascadePRs (teamName oldReviewerID : String) :
    Store → List PullRequest → Store × List ReassignedPR
  | st, [] => (st, [])
  | st, pr :: rest =>
    match reassignReviewerInPR st pr.pullRequestID oldReviewerID teamName with
    | .error _ => cascadePRs teamName oldReviewerID st rest
    | .ok (rp, st2) =>
      let res := cascadePRs teamName oldReviewerID st2 rest
      (res.fst, rp :: res.snd)

/-- The outer cascade loop of `UserService.BulkDeactivateUsers` over the
deactivated users. -/
def cascadeUsers (teamName : String) :
    Store → List String → Store × List ReassignedPR
  | st, [] => (st, [])
  | st, userID :: rest =>
    let openPRs := getOpenPRsWithReviewer st userID
    let res1 := cascadePRs teamName userID st openPRs
    let res2 := cascadeUsers teamName res1.fst rest
    (res2.fst, res1.snd ++ res2.snd)

/-- `UserService.BulkDeactivateUsers`. -/
def bulkDeactivateUsers (st : Store) (teamName : String) (userIDs : List String) :
    Except SvcErr (BulkDeactivateResponse × Store) :=
  if !teamExists st teamName then .error (.service "NOT_FOUND" "team not found")
  else match deactivatePass teamName st userIDs with
  | .error e => .error e
  | .ok (st2, deactivatedUsers) =>
    let res := cascadeUsers teamName st2 deactivatedUsers
    .ok ({ deactivatedUsers := deactivatedUsers, reassignedPRs := res.snd,
           totalProcessed := deactivatedUsers.length,
           reassignedCount := res.snd.length }, res.fst)

/-! ## Generic list lemmas used to reason about the SQL-style updates -/

theorem find?_map_of_pres {α : Type} (f : α → α) (p : α → Bool)
    (hp : ∀ a, p (f a) = p a) (l : List α) :
    (l.map f).find? p = (l.find? p).map f := by
  induction l with
  | nil => rfl
  | cons a l ih =>
    by_cases h : p a = true
    · simp [List.find?_cons, hp, h]
    · simp only [Bool.not_eq_true] at h
      simp [List.find?_cons, hp, h, ih]

theorem any_of_find?_eq_some {α : Type} {p : α → Bool} {l : List α} {a : α}
    (h : l.find? p = some a) : l.any p = true := by
  rw [List.any_eq_true]
  exact ⟨a, List.mem_of_find?_eq_some h, List.find?_some h⟩

theorem getPR_eq {st : Store} {prID : String} {row : PRRow}
    (hrow : getPRRow st prID = some row) :
    getPR st prID = some (prOfRow st prID row) := by
  unfold getPR
  rw [hrow]
  rfl

/-! ## Claim C2: Merge is idempotent -/

/-- The `PullRequest` object returned by a merge of an `OPEN` PR. -/
def mergeResultPR (st : Store) (prID : String) (row : PRRow) (t : Nat) : PullRequest :=
  { prOfRow st prID row with status := "MERGED", mergedAt := some t }

/-- The store written by a merge of an `OPEN` PR. -/
def mergeResultStore (st : Store) (prID : String) (row : PRRow) (t : Nat) : Store :=
  { st with prRows := st.prRows.map (applyPRUpdate (mergeResultPR st prID row t)) }

theorem mergePR_merged {st : Store} {prID : String} {pr : PullRequest} (t : Nat)
    (hpr : getPR st prID = some pr) (hm : pr.status = "MERGED") :
    mergePR st t prID = .ok (pr, st) := by
  simp only [mergePR, hpr, hm]
  simp

theorem mergePR_open {st : Store} {prID : String} {row : PRRow} (t : Nat)
    (hrow : getPRRow st prID = some row) (hopen : row.status = "OPEN") :
    mergePR st t prID = .ok (mergeResultPR st prID row t, mergeResultStore st prID row t) := by
  have hpr := getPR_eq hrow
  have hmem : row ∈ st.prRows := List.mem_of_find?_eq_some hrow
  have hany : (st.prRows.any fun r =>
      r.pullRequestID == (mergeResultPR st prID row t).pullRequestID) = true := by
    rw [List.any_eq_true]
    exact ⟨row, hmem, by simp [mergeResultPR, prOfRow]⟩
  have hupd : updatePRRow st (mergeResultPR st prID row t) =
      .ok (mergeResultStore st prID row t) := by
    unfold updatePRRow mergeResultStore
    rw [if_pos hany]
  unfold mergeResultPR prOfRow at hupd
  simp only [mergePR, hpr, prOfRow, hopen]
  rw [if_neg (by decide), if_neg (by decide)]
  simp only [hupd]
  rfl

theorem getPRRow_after_merge {st : Store} {prID : String} {row : PRRow} (t : Nat)
    (hrow : getPRRow st prID = some row) :
    getPRRow (mergeResultStore st prID row t) prID =
      some { row with status := "MERGED", mergedAt := some t } := by
  have hrow' : st.prRows.find? (fun r : PRRow => r.pullRequestID == prID) = some row := hrow
  have hpres : ∀ r : PRRow,
      ((applyPRUpdate (mergeResultPR st prID row t) r).pullRequestID == prID) =
        (r.pullRequestID == prID) := by
    intro r
    unfold applyPRUpdate
    split <;> rfl
  show (st.prRows.map (applyPRUpdate (mergeResultPR st prID row t))).find?
      (fun r : PRRow => r.pullRequestID == prID) =
      some { row with status := "MERGED", mergedAt := some t }
  rw [find?_map_of_pres _ _ hpres, hrow']
  show some (applyPRUpdate (mergeResultPR st prID row t) row) =
    some { row with status := "MERGED", mergedAt := some t }
  unfold applyPRUpdate
  rw [if_pos (show (row.pullRequestID == (mergeResultPR st prID row t).pullRequestID) = true
    from beq_self_eq_true row.pullRequestID)]
  rfl

theorem getPR_after_merge {st : Store} {prID : String} {row : PRRow} (t : Nat)
    (hrow : getPRRow st prID = some row) :
    getPR (mergeResultStore st prID row t) prID = some (mergeResultPR st prID row t) := by
  unfold getPR
  rw [getPRRow_after_merge t hrow]
  rfl

/-- C2: for every existing PR whose status is `OPEN` or `MERGED` (the only
statuses the schema admits), merging twice yields status `MERGED` both
times with the identical merge timestamp and no error on the second call:
the second call returns exactly the first call's PR and store, an
already-`MERGED` PR is returned unchanged, and an `OPEN` PR is stamped with
the first call's time exactly once. -/
theorem mergePR_idempotent (st : Store) (prID : String) (row : PRRow)
    (t1 t2 : Nat) (hrow : getPRRow st prID = some row)
    (hst : row.status = "OPEN" ∨ row.status = "MERGED") :
    ∃ pr1 st1, mergePR st t1 prID = .ok (pr1, st1) ∧
      pr1.status = "MERGED" ∧
      mergePR st1 t2 prID = .ok (pr1, st1) ∧
      (row.status = "OPEN" → pr1.mergedAt = some t1) ∧
      (row.status = "MERGED" → pr1.mergedAt = row.mergedAt ∧ st1 = st) := by
  rcases hst with hopen | hmerged
  · refine ⟨mergeResultPR st prID row t1, mergeResultStore st prID row t1,
      mergePR_open t1 hrow hopen, rfl, ?_, fun _ => rfl,
      fun hc => absurd (hopen ▸ hc) (by decide)⟩
    exact mergePR_merged t2 (getPR_after_merge t1 hrow) rfl
  · refine ⟨prOfRow st prID row, st,
      mergePR_merged t1 (getPR_eq hrow) hmerged, hmerged,
      mergePR_merged t2 (getPR_eq hrow) hmerged,
      fun hc => absurd (hmerged ▸ hc) (by decide),
      fun _ => ⟨rfl, rfl⟩⟩

/-- Witness for C2 at a concrete store: one open PR, merged at times 5 and
then 9. -/
theorem mergePR_idempotent_witness :
    ∃ pr1 st1,
      mergePR { teams := ["t"],
                users := [{ userID := "a", username := "A", teamName := "t", isActive := true }],
                prRows := [{ pullRequestID := "p1", pullRequestName := "P",
                             authorID := "a", status := "OPEN",
                             createdAt := 0, mergedAt := none }],
                assignments := [] } 5 "p1" = .ok (pr1, st1) ∧
      pr1.status = "MERGED" ∧
      mergePR st1 9 "p1" = .ok (pr1, st1) ∧
      (("OPEN" : String) = "OPEN" → pr1.mergedAt = some 5) ∧
      (("OPEN" : String) = "MERGED" → pr1.mergedAt = none ∧ st1 =
        { teams := ["t"],
          users := [{ userID := "a", username := "A", teamName := "t", isActive := true }],
          prRows := [{ pullRequestID := "p1", pullRequestName := "P",
                       authorID := "a", status := "OPEN",
                       createdAt := 0, mergedAt := none }],
          assignments := [] }) :=
  mergePR_idempotent _ "p1"
    { pullRequestID := "p1", pullRequestName := "P", authorID := "a",
      status := "OPEN", createdAt := 0, mergedAt := none }
    5 9 (by decide) (Or.inl rfl)

/-! ## Claim C4: Reassign on a merged PR always fails and never mutates -/

/-- C4: for every PR whose stored status is `MERGED`, every Reassign call
on it fails with the `PR_MERGED` conflict, and no sequence of Reassign
calls (each given by an old-reviewer id and a random draw) changes the
store — in particular the PR's assignment set is frozen. -/
theorem reassignReviewer_merged_monotone (st : Store) (prID : String) (row : PRRow)
    (hrow : getPRRow st prID = some row) (hm : row.status = "MERGED") :
    (∀ old k, reassignReviewer st prID old k =
      .error (.service "PR_MERGED" "cannot reassign on merged PR")) ∧
    (∀ calls : List (String × Nat),
      calls.foldl (fun s c => reassignStore s prID c.fst c.snd) st = st) := by
  have hpr := getPR_eq hrow
  have herr : ∀ old k, reassignReviewer st prID old k =
      .error (.service "PR_MERGED" "cannot reassign on merged PR") := by
    intro old k
    simp only [reassignReviewer, hpr]
    rw [show (prOfRow st prID row).status = "MERGED" from hm]
    rw [if_pos (by decide)]
  have hstep : ∀ old k, reassignStore st prID old k = st := by
    intro old k
    unfold reassignStore
    rw [herr old k]
  refine ⟨herr, ?_⟩
  intro calls
  induction calls with
  | nil => rfl
  | cons c cs ih => rw [List.foldl_cons, hstep c.fst c.snd, ih]

/-- Witness for C4 at a concrete store with a merged PR. -/
theorem reassignReviewer_merged_monotone_witness :
    (∀ old k, reassignReviewer
      { teams := ["t"],
        users := [{ userID := "a", username := "A", teamName := "t", isActive := true },
                  { userID := "r", username := "R", teamName := "t", isActive := true }],
        prRows := [{ pullRequestID := "p1", pullRequestName := "P",
                     authorID := "a", status := "MERGED",
                     createdAt := 0, mergedAt := some 4 }],
        assignments := [("p1", "r")] } "p1" old k =
      .error (.service "PR_MERGED" "cannot reassign on merged PR")) ∧
    (∀ calls : List (String × Nat),
      calls.foldl (fun s c => reassignStore s "p1" c.fst c.snd)
        { teams := ["t"],
          users := [{ userID := "a", username := "A", teamName := "t", isActive := true },
                    { userID := "r", username := "R", teamName := "t", isActive := true }],
          prRows := [{ pullRequestID := "p1", pullRequestName := "P",
                       authorID := "a", status := "MERGED",
                       createdAt := 0, mergedAt := some 4 }],
          assignments := [("p1", "r")] } =
        { teams := ["t"],
          users := [{ userID := "a", username := "A", teamName := "t", isActive := true },
                    { userID := "r", username := "R", teamName := "t", isActive := true }],
          prRows := [{ pullRequestID := "p1", pullRequestName := "P",
                       authorID := "a", status := "MERGED",
                       createdAt := 0, mergedAt := some 4 }],
          assignments := [("p1", "r")] }) :=
  reassignReviewer_merged_monotone _ "p1"
    { pullRequestID := "p1", pullRequestName := "P", authorID := "a",
      status := "MERGED", createdAt := 0, mergedAt := some 4 }
    (by decide) rfl

/-! ## Claim C6: GET /team/get for an absent team -/

/-- C6: evaluation of the team-get pipeline at a store holding no team at
all.  The repository's `GetTeam` only queries the `users` relation and
never checks the `teams` relation, so for an absent team the service
returns a team object with an empty member list and the endpoint answers
200 — not the 404 `NOT_FOUND` the claim (and the spec's endpoint table)
require. -/
theorem getTeam_absent_returns_200 :
    teamExists { teams := [], users := [], prRows := [], assignments := [] } "ghost" = false ∧
    getTeamService { teams := [], users := [], prRows := [], assignments := [] } "ghost" =
      .ok { teamName := "ghost", members := [] } ∧
    getTeamEndpointStatus { teams := [], users := [], prRows := [], assignments := [] }
      "ghost" = 200 := by
  refine ⟨rfl, rfl, rfl⟩

/-! ## Claim C9: GET /users/getReview for an unknown user -/

/-- C9: for a user id that does not resolve, `GetUserReviewPRs` fails with
`NOT_FOUND` and the endpoint answers 404 (not an empty list); the
empty-list-without-error response is reserved for existing inactive
users. -/
theorem getUserReview_notFound_vs_inactive (st : Store) (userID : String) (u : User) :
    (getUser st userID = none →
      getUserReviewPRs st userID = .error (.service "NOT_FOUND" "user not found") ∧
      getUserReviewEndpointStatus st userID = 404) ∧
    (getUser st userID = some u → u.isActive = false →
      getUserReviewPRs st userID = .ok [] ∧
      getUserReviewEndpointStatus st userID = 200) := by
  constructor
  · intro h
    have h1 : getUserReviewPRs st userID = .error (.service "NOT_FOUND" "user not found") := by
      simp only [getUserReviewPRs, h]
    refine ⟨h1, ?_⟩
    simp only [getUserReviewEndpointStatus, h1]
    rfl
  · intro h hinact
    have h1 : getUserReviewPRs st userID = .ok [] := by
      simp only [getUserReviewPRs, h, hinact]
      rfl
    refine ⟨h1, ?_⟩
    simp only [getUserReviewEndpointStatus, h1]

/-- Witness for C9: a store with one inactive user `bob`; the id `ghost`
is absent. -/
theorem getUserReview_notFound_vs_inactive_witness :
    (getUserReviewPRs
        { teams := ["t"],
          users := [{ userID := "bob", username := "B", teamName := "t", isActive := false }],
          prRows := [], assignments := [] } "ghost" =
        .error (.service "NOT_FOUND" "user not found") ∧
      getUserReviewEndpointStatus
        { teams := ["t"],
          users := [{ userID := "bob", username := "B", teamName := "t", isActive := false }],
          prRows := [], assignments := [] } "ghost" = 404) ∧
    (getUserReviewPRs
        { teams := ["t"],
          users := [{ userID := "bob", username := "B", teamName := "t", isActive := false }],
          prRows := [], assignments := [] } "bob" = .ok [] ∧
      getUserReviewEndpointStatus
        { teams := ["t"],
          users := [{ userID := "bob", username := "B", teamName := "t", isActive := false }],
          prRows := [], assignments := [] } "bob" = 200) :=
  ⟨(getUserReview_notFound_vs_inactive _ "ghost"
      { userID := "bob", username := "B", teamName := "t", isActive := false }).1 (by decide),
   (getUserReview_notFound_vs_inactive _ "bob"
      { userID := "bob", username := "B", teamName := "t", isActive := false }).2 (by decide) rfl⟩

/-! ## Claim C5: Reassign's replacement pool and the NO_CANDIDATE path -/

theorem mem_getActiveUsersByTeam {st : Store} {teamName : String} {u : User} :
    u ∈ getActiveUsersByTeam st teamName ↔
      u ∈ st.users ∧ u.teamName = teamName ∧ u.isActive = true := by
  unfold getActiveUsersByTeam
  rw [(List.perm_insertionSort (fun a b => a.userID.data ≤ b.userID.data)
      (st.users.filter (fun v => v.teamName == teamName && v.isActive))).mem_iff]
  simp [List.mem_filter, and_assoc]

theorem mem_replacementCandidates {st : Store} {teamName prID authorID oldReviewerID x : String} :
    x ∈ replacementCandidates st teamName prID authorID oldReviewerID ↔
      (∃ u ∈ st.users, u.userID = x ∧ u.teamName = teamName ∧ u.isActive = true) ∧
      x ≠ authorID ∧ x ≠ oldReviewerID ∧ isReviewerAssigned st prID x = false := by
  unfold replacementCandidates
  simp only [List.mem_map, List.mem_filter, mem_getActiveUsersByTeam]
  constructor
  · rintro ⟨u, ⟨⟨hmem, hteam, hact⟩, hpred⟩, hx⟩
    simp only [Bool.and_eq_true, bne_iff_ne, Bool.not_eq_true'] at hpred
    subst hx
    exact ⟨⟨u, hmem, rfl, hteam, hact⟩, hpred.1.1, hpred.1.2, hpred.2⟩
  · rintro ⟨⟨u, hmem, hx, hteam, hact⟩, ha, ho, hassigned⟩
    subst hx
    refine ⟨u, ⟨⟨hmem, hteam, hact⟩, ?_⟩, rfl⟩
    simp only [Bool.and_eq_true, bne_iff_ne, Bool.not_eq_true']
    exact ⟨⟨ha, ho⟩, hassigned⟩

/-- C5: when a Reassign call passes its preconditions (the PR exists and is
`OPEN`, the old reviewer is assigned, exists, and is active), the
replacement candidate pool is exactly the active members of the old
reviewer's team minus the PR's author, the old reviewer, and every
currently-assigned reviewer of that PR; and an empty pool makes Reassign
fail with `NO_CANDIDATE` leaving the store unchanged. -/
theorem reassignReviewer_pool_and_no_candidate (st : Store) (prID oldReviewerID : String)
    (pr : PullRequest) (oldReviewer : User) (k : Nat)
    (hpr : getPR st prID = some pr) (hopen : pr.status = "OPEN")
    (hassigned : isReviewerAssigned st prID oldReviewerID = true)
    (hold : getUser st oldReviewerID = some oldReviewer)
    (hact : oldReviewer.isActive = true) :
    (∀ x, x ∈ replacementCandidates st oldReviewer.teamName prID pr.authorID oldReviewerID ↔
      (∃ u ∈ st.users, u.userID = x ∧ u.teamName = oldReviewer.teamName ∧ u.isActive = true) ∧
      x ≠ pr.authorID ∧ x ≠ oldReviewerID ∧ isReviewerAssigned st prID x = false) ∧
    (replacementCandidates st oldReviewer.teamName prID pr.authorID oldReviewerID = [] →
      reassignReviewer st prID oldReviewerID k =
        .error (.service "NO_CANDIDATE" "no active replacement candidate in team") ∧
      reassignStore st prID oldReviewerID k = st) := by
  refine ⟨fun x => mem_replacementCandidates, fun hempty => ?_⟩
  have hsel : selectReplacementReviewer st oldReviewer.teamName prID pr.authorID
      oldReviewerID k =
      .error (.service "NO_CANDIDATE" "no active replacement candidate in team") := by
    unfold selectReplacementReviewer
    rw [hempty]
    rfl
  have herr : reassignReviewer st prID oldReviewerID k =
      .error (.service "NO_CANDIDATE" "no active replacement candidate in team") := by
    simp only [reassignReviewer, hpr, hopen, hassigned, hold, hact]
    rw [if_neg (by decide)]
    rw [if_neg (by decide)]
    rw [if_neg (by decide)]
    rw [hsel]
  refine ⟨herr, ?_⟩
  unfold reassignStore
  rw [herr]

/-- Concrete store for the C5 witness: the only active team members are
the author and the old reviewer, so the replacement pool is empty. -/
def stC5 : Store :=
  { teams := ["t"],
    users := [{ userID := "a", username := "A", teamName := "t", isActive := true },
              { userID := "r", username := "R", teamName := "t", isActive := true }],
    prRows := [{ pullRequestID := "p1", pullRequestName := "P",
                 authorID := "a", status := "OPEN",
                 createdAt := 0, mergedAt := none }],
    assignments := [("p1", "r")] }

/-- Witness for C5 at `stC5`. -/
theorem reassignReviewer_pool_and_no_candidate_witness :
    (∀ x, x ∈ replacementCandidates stC5 "t" "p1" "a" "r" ↔
      (∃ u ∈ stC5.users, u.userID = x ∧ u.teamName = "t" ∧ u.isActive = true) ∧
      x ≠ "a" ∧ x ≠ "r" ∧ isReviewerAssigned stC5 "p1" x = false) ∧
    (replacementCandidates stC5 "t" "p1" "a" "r" = [] →
      reassignReviewer stC5 "p1" "r" 0 =
        .error (.service "NO_CANDIDATE" "no active replacement candidate in team") ∧
      reassignStore stC5 "p1" "r" 0 = stC5) :=
  reassignReviewer_pool_and_no_candidate stC5 "p1" "r"
    { pullRequestID := "p1", pullRequestName := "P", authorID := "a",
      status := "OPEN", assignedReviewers := ["r"], createdAt := 0, mergedAt := none }
    { userID := "r", username := "R", teamName := "t", isActive := true }
    0 (by decide) rfl (by decide) (by decide) rfl

/-! ## Claim C3: initial reviewer selection at PR creation -/

theorem mem_initialCandidates {st : Store} {authorID teamName x : String} :
    x ∈ initialCandidates st authorID teamName ↔
      (∃ u ∈ st.users, u.userID = x ∧ u.teamName = teamName ∧ u.isActive = true) ∧
      x ≠ authorID := by
  unfold initialCandidates
  simp only [List.mem_map, List.mem_filter, mem_getActiveUsersByTeam]
  constructor
  · rintro ⟨u, ⟨⟨hmem, hteam, hact⟩, hpred⟩, hx⟩
    simp only [bne_iff_ne] at hpred
    subst hx
    exact ⟨⟨u, hmem, rfl, hteam, hact⟩, hpred⟩
  · rintro ⟨⟨u, hmem, hx, hteam, hact⟩, ha⟩
    subst hx
    exact ⟨u, ⟨⟨hmem, hteam, hact⟩, by simpa [bne_iff_ne] using ha⟩, rfl⟩

theorem initialCandidates_nodup (st : Store) (authorID teamName : String)
    (hpk : (st.users.map User.userID).Nodup) :
    (initialCandidates st authorID teamName).Nodup := by
  unfold initialCandidates getActiveUsersByTeam
  have h1 : ((st.users.filter (fun u => u.teamName == teamName && u.isActive)).map
      User.userID).Nodup :=
    hpk.sublist ((List.filter_sublist st.users).map User.userID)
  have h2 : ((List.insertionSort (fun a b => a.userID.data ≤ b.userID.data)
      (st.users.filter (fun u => u.teamName == teamName && u.isActive))).map
      User.userID).Nodup :=
    (((List.perm_insertionSort (fun a b => a.userID.data ≤ b.userID.data)
      (st.users.filter (fun u => u.teamName == teamName && u.isActive))).map
      User.userID).nodup_iff).mpr h1
  exact h2.sublist ((List.filter_sublist _).map User.userID)

/-- C3: the initial reviewer selection builds its pool as the team's active
members minus the author; an empty pool yields an empty reviewer set (no
error path exists); otherwise a full shuffle followed by taking a prefix
returns exactly `min 2 |pool|` reviewers, and the returned set has no
duplicates, excludes the author, is drawn from the pool, and has size at
most 2.  The shuffle is an arbitrary permutation and user ids are unique
(the `users` primary key). -/
theorem assignReviewers_spec (st : Store) (authorID teamName : String)
    (shuffle : List String → List String)
    (hshuffle : ∀ l, (shuffle l).Perm l)
    (hpk : (st.users.map User.userID).Nodup) :
    (∀ x, x ∈ initialCandidates st authorID teamName ↔
      (∃ u ∈ st.users, u.userID = x ∧ u.teamName = teamName ∧ u.isActive = true) ∧
      x ≠ authorID) ∧
    (initialCandidates st authorID teamName = [] →
      assignReviewers st authorID teamName shuffle = []) ∧
    (assignReviewers st authorID teamName shuffle).Nodup ∧
    authorID ∉ assignReviewers st authorID teamName shuffle ∧
    (assignReviewers st authorID teamName shuffle).length =
      min 2 (initialCandidates st authorID teamName).length ∧
    (assignReviewers st authorID teamName shuffle).length ≤ 2 ∧
    (∀ x ∈ assignReviewers st authorID teamName shuffle,
      x ∈ initialCandidates st authorID teamName) := by
  have hsub : ∀ x ∈ assignReviewers st authorID teamName shuffle,
      x ∈ initialCandidates st authorID teamName := by
    intro x hx
    unfold assignReviewers at hx
    by_cases hc : ((initialCandidates st authorID teamName).length == 0) = true
    · rw [if_pos hc] at hx
      exact absurd hx (List.not_mem_nil x)
    · rw [if_neg hc] at hx
      exact ((hshuffle (initialCandidates st authorID teamName)).subset)
        (List.take_subset _ _ hx)
  refine ⟨fun x => mem_initialCandidates, ?_, ?_, ?_, ?_, ?_, hsub⟩
  · intro hempty
    unfold assignReviewers
    rw [hempty]
    rfl
  · unfold assignReviewers
    by_cases hc : ((initialCandidates st authorID teamName).length == 0) = true
    · rw [if_pos hc]
      exact List.nodup_nil
    · rw [if_neg hc]
      exact List.Nodup.sublist (List.take_sublist _ _)
        (((hshuffle (initialCandidates st authorID teamName)).nodup_iff).mpr
          (initialCandidates_nodup st authorID teamName hpk))
  · intro hmem
    have := (mem_initialCandidates.mp (hsub authorID hmem)).2
    exact this rfl
  · unfold assignReviewers
    by_cases hc : ((initialCandidates st authorID teamName).length == 0) = true
    · rw [if_pos hc]
      have : (initialCandidates st authorID teamName).length = 0 := by simpa using hc
      simp [this]
    · rw [if_neg hc]
      rw [List.length_take, (hshuffle (initialCandidates st authorID teamName)).length_eq]
      omega
  · unfold assignReviewers
    by_cases hc : ((initialCandidates st authorID teamName).length == 0) = true
    · rw [if_pos hc]
      simp
    · rw [if_neg hc]
      rw [List.length_take, (hshuffle (initialCandidates st authorID teamName)).length_eq]
      omega

/-- Concrete store for the C3 witness: four active members of team `t2`. -/
def stC3 : Store :=
  { teams := ["t2"],
    users := [{ userID := "a", username := "A", teamName := "t2", isActive := true },
              { userID := "b", username := "B", teamName := "t2", isActive := true },
              { userID := "c", username := "C", teamName := "t2", isActive := true },
              { userID := "d", username := "D", teamName := "t2", isActive := true }],
    prRows := [], assignments := [] }

/-- Witness for C3 at `stC3` with the identity shuffle. -/
theorem assignReviewers_spec_witness :
    (∀ x, x ∈ initialCandidates stC3 "a" "t2" ↔
      (∃ u ∈ stC3.users, u.userID = x ∧ u.teamName = "t2" ∧ u.isActive = true) ∧
      x ≠ "a") ∧
    (initialCandidates stC3 "a" "t2" = [] →
      assignReviewers stC3 "a" "t2" (fun l => l) = []) ∧
    (assignReviewers stC3 "a" "t2" (fun l => l)).Nodup ∧
    "a" ∉ assignReviewers stC3 "a" "t2" (fun l => l) ∧
    (assignReviewers stC3 "a" "t2" (fun l => l)).length =
      min 2 (initialCandidates stC3 "a" "t2").length ∧
    (assignReviewers stC3 "a" "t2" (fun l => l)).length ≤ 2 ∧
    (∀ x ∈ assignReviewers stC3 "a" "t2" (fun l => l),
      x ∈ initialCandidates stC3 "a" "t2") :=
  assignReviewers_spec stC3 "a" "t2" (fun l => l)
    (fun l => List.Perm.refl l) (by decide)

/-! ## Claims C7 and C8: CreatePR precondition and best-effort assignment -/

theorem createPRRow_ok (st : Store) (pr : PullRequest)
    (h : prExists st pr.pullRequestID = false) :
    createPRRow st pr = .ok { st with prRows := st.prRows ++ [prRowOf pr] } := by
  unfold createPRRow
  rw [h]
  rfl

/-- C7: a create-PR request whose author id does not resolve fails with
`NOT_FOUND` before any store write (the author check precedes the PR
insert), so the store is untouched and a subsequent create with the same
PR id and a valid, active author succeeds. -/
theorem createPR_author_absent (st : Store) (now now2 : Nat)
    (prID prName prName2 authorID authorID2 : String) (u2 : User)
    (shuffle shuffle2 : List String → List String) (af af2 : Bool)
    (hnx : prExists st prID = false)
    (hauthor : getUser st authorID = none)
    (h2 : getUser st authorID2 = some u2) (hact : u2.isActive = true) :
    createPR st now prID prName authorID shuffle af =
      .error (.service "NOT_FOUND" "author not found") ∧
    ∃ pr st2, createPR st now2 prID prName2 authorID2 shuffle2 af2 = .ok (pr, st2) := by
  constructor
  · simp only [createPR, hnx, hauthor]
    rw [if_neg (by decide)]
  · simp only [createPR, hnx, h2, hact, Bool.not_true]
    rw [if_neg (by decide)]
    rw [if_neg (by decide)]
    rw [createPRRow_ok st
      { pullRequestID := prID, pullRequestName := prName2, authorID := authorID2,
        status := "OPEN",
        assignedReviewers := assignReviewers st authorID2 u2.teamName shuffle2,
        createdAt := now2, mergedAt := none } hnx]
    exact ⟨_, _, rfl⟩

/-- C8: when the reviewer-assignment write fails after the PR row is
persisted (`assignWriteFails = true`), CreatePR still returns the created
PR without error; the PR row stays (no rollback) while the assignment
rows are simply not written. -/
theorem createPR_best_effort (st : Store) (now : Nat)
    (prID prName authorID : String) (author : User)
    (shuffle : List String → List String)
    (hnx : prExists st prID = false)
    (hauthor : getUser st authorID = some author) (hact : author.isActive = true) :
    ∃ pr st2, createPR st now prID prName authorID shuffle true = .ok (pr, st2) ∧
      pr = { pullRequestID := prID, pullRequestName := prName, authorID := authorID,
             status := "OPEN",
             assignedReviewers := assignReviewers st authorID author.teamName shuffle,
             createdAt := now, mergedAt := none } ∧
      st2.prRows = st.prRows ++ [prRowOf pr] ∧
      st2.assignments = st.assignments := by
  have heq : createPR st now prID prName authorID shuffle true =
      .ok ({ pullRequestID := prID, pullRequestName := prName, authorID := authorID,
             status := "OPEN",
             assignedReviewers := assignReviewers st authorID author.teamName shuffle,
             createdAt := now, mergedAt := none },
           { st with prRows := st.prRows ++ [prRowOf
             { pullRequestID := prID, pullRequestName := prName, authorID := authorID,
               status := "OPEN",
               assignedReviewers := assignReviewers st authorID author.teamName shuffle,
               createdAt := now, mergedAt := none }] }) := by
    simp only [createPR, hnx, hauthor, hact, Bool.not_true]
    rw [if_neg (by decide)]
    rw [createPRRow_ok st
      { pullRequestID := prID, pullRequestName := prName, authorID := authorID,
        status := "OPEN",
        assignedReviewers := assignReviewers st authorID author.teamName shuffle,
        createdAt := now, mergedAt := none } hnx]
    simp [ite_self]
  exact ⟨_, _, heq, rfl, rfl, rfl⟩

/-- Concrete store for the C7 witness: one active user `a`, no PR rows. -/
def stC7 : Store :=
  { teams := ["t"],
    users := [{ userID := "a", username := "A", teamName := "t", isActive := true }],
    prRows := [], assignments := [] }

/-- Witness for C7 at `stC7`: author `ghost` is absent, author `a` is
present and active. -/
theorem createPR_author_absent_witness :
    createPR stC7 0 "p1" "P" "ghost" (fun l => l) false =
      .error (.service "NOT_FOUND" "author not found") ∧
    ∃ pr st2, createPR stC7 1 "p1" "P2" "a" (fun l => l) false = .ok (pr, st2) :=
  createPR_author_absent stC7 0 1 "p1" "P" "P2" "ghost" "a"
    { userID := "a", username := "A", teamName := "t", isActive := true }
    (fun l => l) (fun l => l) false false
    (by decide) (by decide) (by decide) rfl

/-- Witness for C8 at `stC3`: author `a` with three active teammates; the
assignment write is made to fail. -/
theorem createPR_best_effort_witness :
    ∃ pr st2, createPR stC3 7 "p9" "P9" "a" (fun l => l) true = .ok (pr, st2) ∧
      pr = { pullRequestID := "p9", pullRequestName := "P9", authorID := "a",
             status := "OPEN",
             assignedReviewers := assignReviewers stC3 "a" "t2" (fun l => l),
             createdAt := 7, mergedAt := none } ∧
      st2.prRows = stC3.prRows ++ [prRowOf pr] ∧
      st2.assignments = stC3.assignments :=
  createPR_best_effort stC3 7 "p9" "P9" "a"
    { userID := "a", username := "A", teamName := "t2", isActive := true }
    (fun l => l) (by decide) (by decide) rfl

/-! ## Claim C1: cascade selection versus Reassign selection -/

theorem containsStr_assigned (st : Store) (prID x : String) :
    containsStr (getAssignedReviewers st prID) x = isReviewerAssigned st prID x := by
  unfold containsStr getAssignedReviewers isReviewerAssigned
  generalize st.assignments = l
  induction l with
  | nil => rfl
  | cons a rest ih =>
    by_cases h : (a.fst == prID) = true
    · simp [List.filter_cons, h, List.any_cons, ih]
    · simp only [Bool.not_eq_true] at h
      simp [List.filter_cons, h, List.any_cons, ih]

theorem cascadeCandidates_eq (st : Store) (teamName prID authorID oldReviewerID : String) :
    ((getActiveUsersByTeam st teamName).filter (fun u =>
        u.userID != authorID && u.userID != oldReviewerID &&
        !containsStr (getAssignedReviewers st prID) u.userID)).map (fun u => u.userID) =
      replacementCandidates st teamName prID authorID oldReviewerID := by
  unfold replacementCandidates
  exact congrArg (List.map _)
    (List.filter_congr (fun u _ => by rw [containsStr_assigned]))

/-- Concrete store for the C1 counterexample: replacing reviewer `r` on PR
`p1` (authored by `a`) has the two-element candidate pool `[u1, u2]`. -/
def stC1 : Store :=
  { teams := ["t"],
    users := [{ userID := "a", username := "A", teamName := "t", isActive := true },
              { userID := "r", username := "R", teamName := "t", isActive := true },
              { userID := "u1", username := "U1", teamName := "t", isActive := true },
              { userID := "u2", username := "U2", teamName := "t", isActive := true }],
    prRows := [{ pullRequestID := "p1", pullRequestName := "P",
                 authorID := "a", status := "OPEN",
                 createdAt := 0, mergedAt := none }],
    assignments := [("p1", "r")] }

/-- Counterexample for C1: on `stC1` the Reassign selection procedure
(`selectReplacementReviewer`, a uniform-random pick) can return `u2` (the
draw with index 1), while the cascade's per-PR replacement
(`reassignReviewerInPR`) always installs `u1`, the first candidate, so
the cascade's selection is not the uniform-random single pick of §4.2
Reassign. -/
theorem cascade_pick_not_uniform_counterexample :
    selectReplacementReviewer stC1 "t" "p1" "a" "r" 1 = .ok "u2" ∧
    reassignReviewerInPR stC1 "p1" "r" "t" =
      .ok ({ prID := "p1", oldReviewers := ["r"], newReviewers := ["u1"] },
           { teams := ["t"],
             users := [{ userID := "a", username := "A", teamName := "t", isActive := true },
                       { userID := "r", username := "R", teamName := "t", isActive := true },
                       { userID := "u1", username := "U1", teamName := "t", isActive := true },
                       { userID := "u2", username := "U2", teamName := "t", isActive := true }],
             prRows := [{ pullRequestID := "p1", pullRequestName := "P",
                          authorID := "a", status := "OPEN",
                          createdAt := 0, mergedAt := none }],
             assignments := [("p1", "u1")] }) ∧
    ("u1" : String) ≠ "u2" := by
  refine ⟨rfl, rfl, by decide⟩

/-- C1 (amended): the cascade builds its candidate pool with exactly the
same exclusion rules as §4.2 Reassign (the pool equals
`replacementCandidates`, see `cascadeCandidates_eq`), but installs the
first candidate of the pool deterministically instead of drawing
uniformly at random. -/
theorem cascade_installs_first_candidate (st : Store)
    (prID oldReviewerID teamName : String) (pr : PullRequest)
    (hpr : getPR st prID = some pr)
    (hassigned : isReviewerAssigned st prID oldReviewerID = true)
    (hnonempty : replacementCandidates st teamName prID pr.authorID oldReviewerID ≠ []) :
    ∃ st2, reassignReviewerInPR st prID oldReviewerID teamName =
      .ok ({ prID := prID, oldReviewers := getAssignedReviewers st prID,
             newReviewers := replaceFirst (getAssignedReviewers st prID) oldReviewerID
               ((replacementCandidates st teamName prID pr.authorID oldReviewerID).getD 0 "") },
           st2) := by
  have hcontains : containsStr (getAssignedReviewers st prID) oldReviewerID = true := by
    rw [containsStr_assigned]
    exact hassigned
  obtain ⟨c0, ctail, hcands⟩ :=
    List.exists_cons_of_ne_nil hnonempty
  have hmem0 : (replacementCandidates st teamName prID pr.authorID oldReviewerID).getD 0 "" ∈
      replacementCandidates st teamName prID pr.authorID oldReviewerID := by
    rw [hcands]
    exact List.mem_cons_self c0 ctail
  have hnew := mem_replacementCandidates.mp hmem0
  have hnotassigned : isReviewerAssigned st prID
      ((replacementCandidates st teamName prID pr.authorID oldReviewerID).getD 0 "") = false :=
    hnew.2.2.2
  have hafter : ((st.assignments.filter
      (fun a => !(a.fst == prID && a.snd == oldReviewerID))).any
      (fun a => a.fst == prID && a.snd ==
        ((replacementCandidates st teamName prID pr.authorID oldReviewerID).getD 0 ""))) =
      false := by
    rw [List.any_eq_false]
    intro a ha
    have hall := List.any_eq_false.mp hnotassigned
    exact hall a (List.mem_of_mem_filter ha)
  have hrepl : replaceReviewer st prID oldReviewerID
      ((replacementCandidates st teamName prID pr.authorID oldReviewerID).getD 0 "") =
      .ok { st with assignments := (st.assignments.filter
              (fun a => !(a.fst == prID && a.snd == oldReviewerID))) ++
            [(prID, (replacementCandidates st teamName prID pr.authorID oldReviewerID).getD 0 "")] } := by
    unfold replaceReviewer
    rw [if_pos hassigned]
    simp only [hafter]
    rw [if_neg (by decide)]
  have hlen : ((replacementCandidates st teamName prID pr.authorID oldReviewerID).length == 0) =
      false := by
    rw [hcands]
    rfl
  simp only [reassignReviewerInPR, hcontains, Bool.not_true, hpr, cascadeCandidates_eq]
  rw [if_neg (by decide)]
  rw [hlen]
  rw [if_neg (by decide)]
  rw [hrepl]
  exact ⟨_, rfl⟩

/-- Witness for the amended C1 at `stC1`: the cascade installs `u1`, the
first element of the pool `[u1, u2]`. -/
theorem cascade_installs_first_candidate_witness :
    ∃ st2, reassignReviewerInPR stC1 "p1" "r" "t" =
      .ok ({ prID := "p1", oldReviewers := getAssignedReviewers stC1 "p1",
             newReviewers := replaceFirst (getAssignedReviewers stC1 "p1") "r"
               ((replacementCandidates stC1 "t" "p1" "a" "r").getD 0 "") },
           st2) :=
  cascade_installs_first_candidate stC1 "p1" "r" "t"
    { pullRequestID := "p1", pullRequestName := "P", authorID := "a",
      status := "OPEN", assignedReviewers := ["r"], createdAt := 0, mergedAt := none }
    (by decide) (by decide)
    (show (["u1", "u2"] : List String) ≠ [] by decide)

/-! ## Claim C10: bulk-deactivation response consistency -/

/-- Whether a user id resolves to an existing user of the given team: the
per-id acceptance condition of the bulk deactivation's first pass. -/
def memberOfTeam (st : Store) (teamName userID : String) : Bool :=
  match getUser st userID with
  | some u => u.teamName == teamName
  | none => false

theorem applyUserUpdate_pres_find (user : User) (id : String) (u : User) :
    ((applyUserUpdate user u).userID == id) = (u.userID == id) := by
  unfold applyUserUpdate
  by_cases h : (u.userID == user.userID) = true
  · rw [if_pos h]
    rw [eq_of_beq h]
  · rw [if_neg h]

theorem getUser_after_userUpdate (st : Store) (user : User) (id : String) :
    getUser { st with users := st.users.map (applyUserUpdate user) } id =
      (getUser st id).map (applyUserUpdate user) :=
  find?_map_of_pres (applyUserUpdate user) _ (applyUserUpdate_pres_find user id) st.users

theorem memberOfTeam_after_deactivate (st : Store) (user : User)
    (hget : getUser st user.userID = some user) (teamName id : String) :
    memberOfTeam
      { st with users := st.users.map (applyUserUpdate { user with isActive := false }) }
      teamName id = memberOfTeam st teamName id := by
  unfold memberOfTeam
  rw [getUser_after_userUpdate]
  cases hid : getUser st id with
  | none => rfl
  | some v =>
    show ((applyUserUpdate { user with isActive := false } v).teamName == teamName) =
      (v.teamName == teamName)
    unfold applyUserUpdate
    by_cases h : (v.userID == ({ user with isActive := false } : User).userID) = true
    · rw [if_pos h]
      have h1 : v.userID = user.userID := eq_of_beq h
      have hid2 : st.users.find? (fun u : User => u.userID == id) = some v := hid
      have h3b := @List.find?_some User (fun u : User => u.userID == id) v st.users hid2
      have h3 : v.userID = id := eq_of_beq h3b
      have h4 : getUser st user.userID = some v := by
        rw [← h1, h3]
        exact hid
      rw [h4] at hget
      rw [Option.some.inj hget]
    · rw [if_neg h]

theorem deactivatePass_spec (teamName : String) :
    ∀ (ids : List String) (st st2 : Store) (acc : List String),
      deactivatePass teamName st ids = .ok (st2, acc) →
      acc = ids.filter (fun id => memberOfTeam st teamName id) := by
  intro ids
  induction ids with
  | nil =>
    intro st st2 acc h
    unfold deactivatePass at h
    cases h
    rfl
  | cons id rest ih =>
    intro st st2 acc h
    unfold deactivatePass at h
    cases hget : getUser st id with
    | none =>
      simp only [hget] at h
      rw [List.filter_cons,
        show memberOfTeam st teamName id = false from by unfold memberOfTeam; rw [hget]]
      simpa using ih st st2 acc h
    | some user =>
      simp only [hget] at h
      by_cases hteam : (user.teamName != teamName) = true
      · rw [if_pos hteam] at h
        rw [List.filter_cons,
          show memberOfTeam st teamName id = false from by
            unfold memberOfTeam
            rw [hget]
            simpa [bne_iff_ne] using hteam]
        simpa using ih st st2 acc h
      · rw [if_neg hteam] at h
        have hany : (st.users.any fun u =>
            u.userID == ({ user with isActive := false } : User).userID) = true := by
          rw [List.any_eq_true]
          exact ⟨user, List.mem_of_find?_eq_some hget, beq_self_eq_true user.userID⟩
        have hupd : updateUser st { user with isActive := false } =
            .ok { st with users :=
              st.users.map (applyUserUpdate { user with isActive := false }) } := by
          unfold updateUser
          rw [if_pos hany]
        simp only [hupd] at h
        cases hrec : deactivatePass teamName
            { st with users :=
              st.users.map (applyUserUpdate { user with isActive := false }) } rest with
        | error e =>
          simp only [hrec] at h
          exact absurd h (by simp)
        | ok p =>
          obtain ⟨st3, ids2⟩ := p
          simp only [hrec, Except.ok.injEq, Prod.mk.injEq] at h
          obtain ⟨-, hacc⟩ := h
          have hget2 : st.users.find? (fun u : User => u.userID == id) = some user := hget
          have huidb := @List.find?_some User (fun u : User => u.userID == id) user st.users hget2
          have huid : user.userID = id := eq_of_beq huidb
          have hget3 : getUser st user.userID = some user := by
            rw [huid]
            exact hget
          have hmem : memberOfTeam st teamName id = true := by
            unfold memberOfTeam
            rw [hget]
            show (user.teamName == teamName) = true
            have hte : user.teamName = teamName := by
              simpa [bne_iff_ne] using hteam
            rw [hte]
            exact beq_self_eq_true teamName
          rw [List.filter_cons, hmem]
          have hfil : rest.filter (fun i => memberOfTeam
              { st with users :=
                st.users.map (applyUserUpdate { user with isActive := false }) } teamName i) =
              rest.filter (fun i => memberOfTeam st teamName i) :=
            List.filter_congr
              (fun i _ => memberOfTeam_after_deactivate st user hget3 teamName i)
          rw [← hacc, ih _ st3 ids2 hrec, hfil]
          simp

/-- C10: a successful bulk deactivation returns an internally consistent
response: `totalProcessed` is the number of deactivated users,
`reassignedCount` is the number of reported reassignments, and
`deactivatedUsers` is exactly the subsequence of the requested ids (in
request order, duplicates kept) that resolve to existing users of the
named team. -/
theorem bulkDeactivate_response_consistent (st : Store) (teamName : String)
    (userIDs : List String) (resp : BulkDeactivateResponse) (st2 : Store)
    (h : bulkDeactivateUsers st teamName userIDs = .ok (resp, st2)) :
    resp.totalProcessed = resp.deactivatedUsers.length ∧
    resp.reassignedCount = resp.reassignedPRs.length ∧
    resp.deactivatedUsers = userIDs.filter (fun id => memberOfTeam st teamName id) := by
  unfold bulkDeactivateUsers at h
  by_cases hteam : (!teamExists st teamName) = true
  · rw [if_pos hteam] at h
    exact absurd h (by simp)
  · rw [if_neg hteam] at h
    cases hd : deactivatePass teamName st userIDs with
    | error e =>
      rw [hd] at h
      exact absurd h (by simp)
    | ok p =>
      obtain ⟨stD, dus⟩ := p
      rw [hd] at h
      simp only [Except.ok.injEq, Prod.mk.injEq] at h
      obtain ⟨hresp, -⟩ := h
      subst hresp
      exact ⟨rfl, rfl, deactivatePass_spec teamName userIDs st stD dus hd⟩

/-- Concrete store for the C10 witness: team `t` with active users `a`,
`b`, `d` and a second team `s` with user `c`; `b` reviews the open PR
`p1` authored by `a`. -/
def stC10 : Store :=
  { teams := ["t", "s"],
    users := [{ userID := "a", username := "A", teamName := "t", isActive := true },
              { userID := "b", username := "B", teamName := "t", isActive := true },
              { userID := "d", username := "D", teamName := "t", isActive := true },
              { userID := "c", username := "C", teamName := "s", isActive := true }],
    prRows := [{ pullRequestID := "p1", pullRequestName := "P",
                 authorID := "a", status := "OPEN",
                 createdAt := 0, mergedAt := none }],
    assignments := [("p1", "b")] }

/-- Witness for C10: deactivating `[b, zz, c]` on team `t` deactivates
only `b` (id `zz` is unknown, `c` is on another team) and cascades `b`'s
one open PR to `d`. -/
theorem bulkDeactivate_response_consistent_witness :
    ({ deactivatedUsers := ["b"],
       reassignedPRs := [{ prID := "p1", oldReviewers := ["b"], newReviewers := ["d"] }],
       totalProcessed := 1, reassignedCount := 1 } :
        BulkDeactivateResponse).totalProcessed =
      ({ deactivatedUsers := ["b"],
         reassignedPRs := [{ prID := "p1", oldReviewers := ["b"], newReviewers := ["d"] }],
         totalProcessed := 1, reassignedCount := 1 } :
          BulkDeactivateResponse).deactivatedUsers.length ∧
    ({ deactivatedUsers := ["b"],
       reassignedPRs := [{ prID := "p1", oldReviewers := ["b"], newReviewers := ["d"] }],
       totalProcessed := 1, reassignedCount := 1 } :
        BulkDeactivateResponse).reassignedCount =
      ({ deactivatedUsers := ["b"],
         reassignedPRs := [{ prID := "p1", oldReviewers := ["b"], newReviewers := ["d"] }],
         totalProcessed := 1, reassignedCount := 1 } :
          BulkDeactivateResponse).reassignedPRs.length ∧
    ({ deactivatedUsers := ["b"],
       reassignedPRs := [{ prID := "p1", oldReviewers := ["b"], newReviewers := ["d"] }],
       totalProcessed := 1, reassignedCount := 1 } :
        BulkDeactivateResponse).deactivatedUsers =
      (["b", "zz", "c"].filter (fun id => memberOfTeam stC10 "t" id)) :=
  bulkDeactivate_response_consistent stC10 "t" ["b", "zz", "c"]
    { deactivatedUsers := ["b"],
      reassignedPRs := [{ prID := "p1", oldReviewers := ["b"], newReviewers := ["d"] }],
      totalProcessed := 1, reassignedCount := 1 }
    { teams := ["t", "s"],
      users := [{ userID := "a", username := "A", teamName := "t", isActive := true },
                { userID := "b", username := "B", teamName := "t", isActive := false },
                { userID := "d", username := "D", teamName := "t", isActive := true },
                { userID := "c", username := "C", teamName := "s", isActive := true }],
      prRows := [{ pullRequestID := "p1", pullRequestName := "P",
                   authorID := "a", status := "OPEN",
                   createdAt := 0, mergedAt := none }],
      assignments := [("p1", "d")] }
    rfl
